import Mathlib

/-!
Verification of getMeraki.py.

A shallow embedding in Lean 4 of the rate-limit-aware HTTP request executor
`invoke_meraki` and the status classifier `classify_status` from
`src/getMeraki.py`, together with theorems settling the specification claims.

Modelling conventions:
* Python strings are Lean `String`s; `str.upper()`/`str.lower()` are modelled
  for the ASCII letter range (the only range the program exercises).
* `int(s)` on a string is modelled by `pyInt` (strip ASCII whitespace, optional
  sign, decimal digits), returning `none` where Python raises `ValueError`.
* The `requests` transport is a function from the attempt number (1-based) to
  either a delivered response or a raised `requests.exceptions.RequestException`
  (connection error, timeout, ...).
* A `Response` carries its status code, its `Retry-After` header (as returned
  by `response.headers.get("Retry-After")`), its raw text body (`response.text`;
  `response.content` is non-empty iff the text is non-empty), and the result of
  `response.json()` (`some v` when the body decodes, `none` when decoding
  raises `JSONDecodeError`).
* Python exceptions are modelled structurally by `PyExn`.  The message strings
  Python builds are functions of the recorded fields, so carrying the fields is
  faithful.  Note the class hierarchy fact the code depends on:
  `requests.exceptions.HTTPError` is a subclass of
  `requests.exceptions.RequestException`, so the `raise HTTPError` on line 69
  of the source is caught by the `except requests.exceptions.RequestException`
  handler on line 73 and re-raised as a plain `Exception` (modelled by
  `PyExn.genericException`).
* Logging to stderr (`print(..., file=sys.stderr)`) and the passage of time in
  `time.sleep` are not modelled; instead the executor records the list of sleep
  durations requested and the list of network requests sent.
-/

/-- ASCII model of Python `str.upper()` on one character. -/
def pyUpperChar (c : Char) : Char :=
  if 97 ≤ c.toNat ∧ c.toNat ≤ 122 then Char.ofNat (c.toNat - 32) else c

/-- ASCII model of Python `str.lower()` on one character. -/
def pyLowerChar (c : Char) : Char :=
  if 65 ≤ c.toNat ∧ c.toNat ≤ 90 then Char.ofNat (c.toNat + 32) else c

/-- ASCII model of Python `str.upper()`. -/
def pyUpper (s : String) : String :=
  String.mk (s.data.map pyUpperChar)

/-- ASCII model of Python `str.lower()`. -/
def pyLower (s : String) : String :=
  String.mk (s.data.map pyLowerChar)

/-- ASCII whitespace stripped by Python `str.strip()` (as exercised by
`int()` argument stripping). -/
def isPySpace (c : Char) : Bool :=
  c == ' ' || c == '\t' || c == '\n' || c == '\r' || c == '\x0b' || c == '\x0c'

/-- Strip leading and trailing whitespace from a character list. -/
def pyStrip (cs : List Char) : List Char :=
  ((cs.dropWhile isPySpace).reverse.dropWhile isPySpace).reverse

/-- All-decimal-digit check used by `pyInt`. -/
def allDigits (cs : List Char) : Bool :=
  cs.all (fun c => 48 ≤ c.toNat ∧ c.toNat ≤ 57)

/-- Value of a list of decimal digits. -/
def digitsVal (cs : List Char) : Nat :=
  cs.foldl (fun acc c => acc * 10 + (c.toNat - 48)) 0

/-- Model of Python `int(s)` for a string argument: strip whitespace,
optional sign, decimal digits.  `none` models a raised `ValueError`.
(Python additionally accepts underscore digit separators and non-ASCII
digits; the program never relies on those.) -/
def pyInt (s : String) : Option Int :=
  match pyStrip s.data with
  | '+' :: rest => if rest ≠ [] ∧ allDigits rest then some (digitsVal rest) else none
  | '-' :: rest => if rest ≠ [] ∧ allDigits rest then some (-(digitsVal rest : Int)) else none
  | cs => if cs ≠ [] ∧ allDigits cs then some (digitsVal cs) else none

/-- JSON values, the structured data produced by `response.json()` /
`json.loads` and consumed by `json.dumps`. -/
inductive JsonVal where
  | null : JsonVal
  | bool (b : Bool) : JsonVal
  | num (n : Int) : JsonVal
  | str (s : String) : JsonVal
  | arr (elems : List JsonVal) : JsonVal
  | obj (fields : List (String × JsonVal)) : JsonVal
deriving Repr

/-- Python truthiness of a decoded JSON value (`if data:` in the source):
`None`, `False`, `0`, `""`, `[]` and `{}` are falsy. -/
def jsonTruthy : JsonVal → Bool
  | .null => false
  | .bool b => b
  | .num n => n != 0
  | .str s => s != ""
  | .arr [] => false
  | .arr (_ :: _) => true
  | .obj [] => false
  | .obj (_ :: _) => true

mutual

/-- Model of Python `json.dumps` (default separators; string escaping is not
modelled because the program never serialises strings needing escapes). -/
def jsonDumps : JsonVal → String
  | .null => "null"
  | .bool true => "true"
  | .bool false => "false"
  | .num n => toString n
  | .str s => "\"" ++ s ++ "\""
  | .arr elems => "[" ++ String.intercalate ", " (jsonDumpsList elems) ++ "]"
  | .obj fields => "\x7b" ++ String.intercalate ", " (jsonDumpsFields fields) ++ "\x7d"

/-- Model of `json.dumps` on the elements of a JSON array. -/
def jsonDumpsList : List JsonVal → List String
  | [] => []
  | v :: vs => jsonDumps v :: jsonDumpsList vs

/-- Model of `json.dumps` on the fields of a JSON object. -/
def jsonDumpsFields : List (String × JsonVal) → List String
  | [] => []
  | (k, v) :: fs => ("\"" ++ k ++ "\": " ++ jsonDumps v) :: jsonDumpsFields fs

end

/-- An HTTP response as seen through the `requests` API. -/
structure Response where
  /-- The `response.status_code` field. -/
  status : Int
  /-- The value of `response.headers.get("Retry-After")`. -/
  retryAfter : Option String
  /-- The text `response.text`; `response.content` is non-empty iff this is non-empty. -/
  body : String
  /-- Result of `response.json()`: `some v` on success, `none` when decoding
  raises `JSONDecodeError`. -/
  jsonBody : Option JsonVal
deriving Repr

/-- Outcome of one network send: either a delivered response or a raised
`requests.exceptions.RequestException` (connection error, timeout, DNS
failure, ...) with its message. -/
inductive TransportResult where
  | ok (resp : Response) : TransportResult
  | exn (msg : String) : TransportResult
deriving Repr

/-- The error payload attached to the `HTTPError` raised on line 69: the
decoded JSON error body, or the raw text when decoding fails (lines 63-66). -/
inductive ErrorContent where
  | json (v : JsonVal) : ErrorContent
  | text (s : String) : ErrorContent
deriving Repr

/-- Python exceptions escaping (or raised inside) `invoke_meraki`,
modelled structurally. -/
inductive PyExn where
  /-- A `ValueError`, with its message.  Raised for an unsupported method
  (line 43) or by `int()` / `time.sleep()` in the retry branch; `ValueError`
  is not a `requests.exceptions.RequestException`, so it is never caught by
  the handler on line 73 and propagates to the caller. -/
  | valueError (msg : String) : PyExn
  /-- The `requests.exceptions.HTTPError` built on line 69 with message
  "HTTP status at url + newline + error content", carrying the fields the
  message is built from. -/
  | httpError (status : Int) (url : String) (content : ErrorContent) : PyExn
  /-- A `requests.exceptions.RequestException` raised by the transport during
  the send (connection error, timeout, ...). -/
  | requestException (msg : String) : PyExn
  /-- A `requests.exceptions.JSONDecodeError` raised by `response.json()` on a
  2xx response with a non-empty undecodable body (a `RequestException`
  subclass in requests ≥ 2.27, hence caught and wrapped). -/
  | jsonDecodeError (body : String) : PyExn
  /-- The plain `Exception(f"An error occurred during the request to {url}: {e}")`
  raised by the handler on line 75, wrapping the caught `RequestException` `e`
  (which, via subclassing, includes the `HTTPError` raised on line 69). -/
  | genericException (url : String) (inner : PyExn) : PyExn
deriving Repr

/-- The `API_KEY` constant from the source configuration block. -/
def API_KEY : String := "32ed1a946080b014fbe70fcabddff667092fd8dc"

/-- The `BASE_URL` constant from the source configuration block. -/
def BASE_URL : String := "https://api.meraki.com/api/v1"

/-- The fixed `HEADERS` dictionary sent with every request. -/
def HEADERS : List (String × String) :=
  [("X-Cisco-Meraki-API-Key", API_KEY),
   ("Accept", "application/json"),
   ("Content-Type", "application/json")]

/-- The ceiling `max_retries = 5` (line 27). -/
def max_retries : Nat := 5

/-- One network request as actually sent: dispatched method (after
`.upper()`), URL, headers, and serialised body (`data=json.dumps(data) if
data else None`, passed only for POST/PUT; GET/DELETE send no body). -/
structure RequestRecord where
  method : String
  url : String
  headers : List (String × String)
  body : Option String
deriving Repr, DecidableEq

/-- The request `invoke_meraki` sends on every attempt, as a function of its
(loop-invariant) arguments.  `m` is `method.upper()`. -/
def mkRequest (m url : String) (data : Option JsonVal) : RequestRecord :=
  { method := m
    url := url
    headers := HEADERS
    body :=
      if m = "POST" ∨ m = "PUT" then
        match data with
        | some d => if jsonTruthy d then some (jsonDumps d) else none
        | none => none
      else none }

/-- Lines 49-53: read `Retry-After`, compute the sleep duration, and sleep.
`int(retry_after) if retry_after else 2`: a missing header or an empty string
(both falsy) give the 2-second default; otherwise `int()` either parses the
string or raises `ValueError`, and `time.sleep` raises `ValueError` on a
negative duration.  Returns the slept duration or the raised exception. -/
def sleepOutcome (retryAfter : Option String) : Except PyExn Int :=
  match retryAfter with
  | none => .ok 2
  | some s =>
    if s = "" then .ok 2
    else
      match pyInt s with
      | none => .error (.valueError ("invalid literal for int() with base 10: " ++ s))
      | some n =>
        if n < 0 then .error (.valueError "sleep length must be non-negative")
        else .ok n

/-- Lines 63-66: `error_content = response.json()` with fallback to
`response.text` when decoding raises `JSONDecodeError`. -/
def errorContent (resp : Response) : ErrorContent :=
  match resp.jsonBody with
  | some v => .json v
  | none => .text resp.body

/-- The observable outcome of a call to `invoke_meraki`: the returned value
(`Option JsonVal`, where `none` is Python `None`) or the escaping exception,
together with the network requests sent and the sleep durations requested,
in order. -/
structure ExecResult where
  result : Except PyExn (Option JsonVal)
  requests : List RequestRecord
  sleeps : List Int
deriving Repr

/-- The `while True` loop body of `invoke_meraki` (lines 31-75).

`attempt` is the value of the counter after the `attempt += 1` at the top of
the iteration; `remaining` is the countdown `max_retries - attempt`, the
structural recursion measure (the guard `attempt < max_retries` on line 48
makes the loop run at most `max_retries` iterations).  `invoke_meraki` enters
with `attempt = 1`, `remaining = max_retries - 1`, and every recursive call
preserves `remaining = max_retries - attempt`, so in the retry branch
`attempt < max_retries` forces `remaining > 0`: the `remaining = 0` fallback
there is unreachable from the entry point (it mirrors the fall-through that
the guard of line 48 in Python already rules out). -/
def invokeLoop (transport : Nat → TransportResult) (method url : String)
    (data : Option JsonVal) :
    Nat → Nat → List RequestRecord → List Int → ExecResult
  | attempt, remaining, reqs, sleeps =>
    if pyUpper method = "GET" ∨ pyUpper method = "POST"
       ∨ pyUpper method = "PUT" ∨ pyUpper method = "DELETE" then
      match transport attempt with
      | .exn msg =>
        -- the send raised; caught on line 73, re-raised as a plain Exception
        { result := .error (.genericException url (.requestException msg))
          requests := reqs ++ [mkRequest (pyUpper method) url data]
          sleeps := sleeps }
      | .ok resp =>
        if resp.status = 429 ∧ attempt < max_retries then
          match sleepOutcome resp.retryAfter with
          | .error e =>
            -- ValueError from int()/sleep: not a RequestException, propagates
            { result := .error e, requests := reqs ++ [mkRequest (pyUpper method) url data], sleeps := sleeps }
          | .ok d =>
            match remaining with
            | r + 1 =>
              invokeLoop transport method url data (attempt + 1) r
                (reqs ++ [mkRequest (pyUpper method) url data]) (sleeps ++ [d])
            | 0 =>
              -- unreachable: remaining = max_retries - attempt > 0 here
              { result := .error (.genericException url
                  (.httpError resp.status url (errorContent resp)))
                requests := reqs ++ [mkRequest (pyUpper method) url data]
                sleeps := sleeps }
        else if 200 ≤ resp.status ∧ resp.status < 300 then
          if resp.body ≠ "" then
            match resp.jsonBody with
            | some v =>
              { result := .ok (some v), requests := reqs ++ [mkRequest (pyUpper method) url data], sleeps := sleeps }
            | none =>
              -- response.json() raised; caught on line 73 and wrapped
              { result := .error (.genericException url (.jsonDecodeError resp.body))
                requests := reqs ++ [mkRequest (pyUpper method) url data]
                sleeps := sleeps }
          else
            { result := .ok none, requests := reqs ++ [mkRequest (pyUpper method) url data], sleeps := sleeps }
        else
          -- line 69 HTTPError, caught on line 73 (HTTPError is a
          -- RequestException subclass) and re-raised as a plain Exception
          { result := .error (.genericException url
              (.httpError resp.status url (errorContent resp)))
            requests := reqs ++ [mkRequest (pyUpper method) url data]
            sleeps := sleeps }
    else
      -- line 43: ValueError("Unsupported method: ..."); no request sent.
      -- Not a RequestException, so it escapes the try uncaught.
      { result := .error (.valueError ("Unsupported method: " ++ method))
        requests := reqs
        sleeps := sleeps }

/-- Model of `invoke_meraki(method, uri, data=None)` (lines 23-75): builds
`url = BASE_URL + uri`, starts the loop with `attempt = 1` (after the first
`attempt += 1`), and is parameterised by the transport. -/
def invoke_meraki (method uri : String) (data : Option JsonVal)
    (transport : Nat → TransportResult) : ExecResult :=
  invokeLoop transport method (BASE_URL ++ uri) data 1 (max_retries - 1) [] []

/-- Model of `classify_status` (lines 79-92): lower-cases the raw status and maps
`active` to `"ATIVA"`, `ready` to `"PRONTA"`, anything else to `"FALHA"`. -/
def classify_status (raw_status : String) : String :=
  let raw_status := pyLower raw_status
  if raw_status = "active" then "ATIVA"
  else if raw_status = "ready" then "PRONTA"
  else "FALHA"


/-- The method strings accepted by the dispatch on lines 34-41. -/
def supportedMethod (method : String) : Prop :=
  pyUpper method = "GET" ∨ pyUpper method = "POST"
  ∨ pyUpper method = "PUT" ∨ pyUpper method = "DELETE"

/-- The transport used in the C2 witness: 429 with `Retry-After: 3` on the
first attempt, then 200 with a JSON body. -/
def retryThenOkTransport : Nat → TransportResult := fun n =>
  if n = 1 then .ok { status := 429, retryAfter := some "3", body := "", jsonBody := none }
  else .ok { status := 200, retryAfter := none, body := "[]", jsonBody := some (.arr []) }

/-- The transport used in the C7 counterexample: 429 with the unparseable
`Retry-After: abc` on the first attempt, then 200 with a JSON body (so the
behaviour the claim predicts — sleep 2s and continue — would have gone on to
succeed). -/
def unparseableRetryAfterTransport : Nat → TransportResult := fun n =>
  if n = 1 then .ok { status := 429, retryAfter := some "abc", body := "", jsonBody := none }
  else .ok { status := 200, retryAfter := none, body := "[]", jsonBody := some (.arr []) }

/-- A transport that is rate-limited (429, no `Retry-After`) on every attempt. -/
def always429Transport : Nat → TransportResult :=
  fun _ => .ok { status := 429, retryAfter := none, body := "rate limited", jsonBody := none }

/-- The URI the script requests. -/
def uplinksUri : String := "/organizations/838074/uplinks/statuses?perPage=1000"

/-- The full URL `BASE_URL + uri` for the request of the script. -/
def uplinksUrl : String := BASE_URL ++ uplinksUri

/-- The transport for the C6 evaluation with a decodable JSON error body. -/
def notFoundTransport : Nat → TransportResult :=
  fun _ => .ok { status := 404, retryAfter := none,
                 body := "\x7b\"errors\": [\"not found\"]\x7d",
                 jsonBody := some (.obj [("errors", .arr [.str "not found"])]) }

/-- The transport for the C6 evaluation with an undecodable error body. -/
def undecodableErrorTransport : Nat → TransportResult :=
  fun _ => .ok { status := 500, retryAfter := none, body := "Server Error", jsonBody := none }

/-- The transport used in the C4 witness: every send raises a connection
error. -/
def connectionRefusedTransport : Nat → TransportResult := fun _ => .exn "connection refused"

/-- The transport used in the C5 witness: 200 with the JSON body `[]`. -/
def okJsonTransport : Nat → TransportResult :=
  fun _ => .ok { status := 200, retryAfter := none, body := "[]", jsonBody := some (.arr []) }

/-- The transport used in the C5 witness: 204 with an empty body. -/
def noContentTransport : Nat → TransportResult :=
  fun _ => .ok { status := 204, retryAfter := none, body := "", jsonBody := none }

/-! ## Helper lemmas -/

/-- Applying `Char.ofNat` to a scalar value below the surrogate range round-trips. -/
theorem char_toNat_ofNat {n : Nat} (h : n < 55296) : (Char.ofNat n).toNat = n := by
  have hv : Nat.isValidChar n := Or.inl h
  rw [Char.ofNat, dif_pos hv]
  rfl

/-- Lower-casing a character is idempotent. -/
theorem pyLowerChar_idem (c : Char) : pyLowerChar (pyLowerChar c) = pyLowerChar c := by
  unfold pyLowerChar
  by_cases h : 65 ≤ c.toNat ∧ c.toNat ≤ 90
  · rw [if_pos h]
    have hlt : c.toNat + 32 < 55296 := by omega
    rw [if_neg]
    rw [char_toNat_ofNat hlt]
    omega
  · rw [if_neg h, if_neg h]

/-- Lower-casing a string is idempotent. -/
theorem pyLower_idem (s : String) : pyLower (pyLower s) = pyLower s := by
  unfold pyLower
  simp only [List.map_map]
  congr 1
  exact List.map_congr_left (fun c _ => by simp [Function.comp, pyLowerChar_idem])

/-! ## Claims about `classify_status` (C8, C10) -/

/-- C8 (counterexample): the claim says `classify_status` maps `active` to
`"ACTIVE"`, `ready` to `"READY"` and anything else to `"FAILURE"`; the code
returns the Portuguese labels `"ATIVA"`, `"PRONTA"` and `"FALHA"` instead. -/
theorem classify_status_labels_counterexample :
    classify_status "active" = "ATIVA" ∧ classify_status "active" ≠ "ACTIVE"
    ∧ classify_status "ready" = "PRONTA" ∧ classify_status "ready" ≠ "READY"
    ∧ classify_status "failed" = "FALHA" ∧ classify_status "failed" ≠ "FAILURE" := by
  refine ⟨rfl, ?_, rfl, ?_, rfl, ?_⟩ <;> decide

/-- C8 (amended): `classify_status` maps the raw connection state `active` to
`"ATIVA"` (active), `ready` to `"PRONTA"` (ready), and every raw state whose
lower-casing is neither `"active"` nor `"ready"` to `"FALHA"` (failure). -/
theorem classify_status_mapping :
    classify_status "active" = "ATIVA" ∧ classify_status "ready" = "PRONTA"
    ∧ ∀ s, pyLower s ≠ "active" → pyLower s ≠ "ready" → classify_status s = "FALHA" := by
  refine ⟨rfl, rfl, fun s h1 h2 => ?_⟩
  unfold classify_status
  rw [if_neg h1, if_neg h2]

/-- C8 (witness): the amended mapping at concrete inputs. -/
theorem classify_status_mapping_witness : classify_status "connecting" = "FALHA" :=
  classify_status_mapping.2.2 "connecting" (by decide) (by decide)

/-- C10: `classify_status` is case-insensitive: it agrees with itself on the
lower-cased input, e.g. `"Active"`, `"ACTIVE"` and `"active"` all classify
identically. -/
theorem classify_status_case_insensitive (s : String) :
    classify_status s = classify_status (pyLower s) := by
  unfold classify_status
  rw [pyLower_idem]

/-! ## Claims about `invoke_meraki` -/

/-- C1: with a method whose upper-casing is none of GET, POST, PUT, DELETE,
`invoke_meraki` raises `ValueError("Unsupported method: ...")` (line 43) and
sends no network request. -/
theorem invoke_meraki_unsupported_method (method uri : String)
    (data : Option JsonVal) (transport : Nat → TransportResult)
    (hm : ¬ (pyUpper method = "GET" ∨ pyUpper method = "POST"
             ∨ pyUpper method = "PUT" ∨ pyUpper method = "DELETE")) :
    invoke_meraki method uri data transport =
      { result := .error (.valueError ("Unsupported method: " ++ method))
        requests := []
        sleeps := [] } := by
  unfold invoke_meraki invokeLoop
  rw [if_neg hm]

/-- C1 (witness): the method `"PATCH"` is rejected with no network call. -/
theorem invoke_meraki_unsupported_method_witness :
    invoke_meraki "PATCH" "/organizations" none (fun _ => .exn "unused") =
      { result := .error (.valueError ("Unsupported method: " ++ "PATCH"))
        requests := []
        sleeps := [] } :=
  invoke_meraki_unsupported_method "PATCH" "/organizations" none (fun _ => .exn "unused")
    (by decide)

/-- One iteration, transport failure: the send raises, the handler on line 73
wraps and re-raises; the loop exits with no further attempt. -/
theorem invokeLoop_step_exn (transport : Nat → TransportResult) (method url : String)
    (data : Option JsonVal) (attempt remaining : Nat)
    (reqs : List RequestRecord) (sleeps : List Int) (msg : String)
    (hm : supportedMethod method)
    (h : transport attempt = .exn msg) :
    invokeLoop transport method url data attempt remaining reqs sleeps =
      { result := .error (.genericException url (.requestException msg))
        requests := reqs ++ [mkRequest (pyUpper method) url data]
        sleeps := sleeps } := by
  unfold supportedMethod at hm
  rw [invokeLoop, if_pos hm, h]

/-- One iteration, 429 with attempts left and a benign `Retry-After`:
sleep the computed duration, bump the counter, loop. -/
theorem invokeLoop_step_retry (transport : Nat → TransportResult) (method url : String)
    (data : Option JsonVal) (attempt r : Nat)
    (reqs : List RequestRecord) (sleeps : List Int) (resp : Response) (d : Int)
    (hm : supportedMethod method)
    (h : transport attempt = .ok resp)
    (h429 : resp.status = 429) (hlt : attempt < max_retries)
    (hd : sleepOutcome resp.retryAfter = .ok d) :
    invokeLoop transport method url data attempt (r + 1) reqs sleeps =
      invokeLoop transport method url data (attempt + 1) r
        (reqs ++ [mkRequest (pyUpper method) url data]) (sleeps ++ [d]) := by
  unfold supportedMethod at hm
  rw [invokeLoop, if_pos hm, h]
  simp only [if_pos (And.intro h429 hlt), hd]

/-- One iteration, 429 with attempts left but a `Retry-After` on which
`int()` or `time.sleep` raises `ValueError`: the exception propagates
(it is not a `RequestException`), no sleep, no retry. -/
theorem invokeLoop_step_retry_valueError (transport : Nat → TransportResult)
    (method url : String) (data : Option JsonVal) (attempt remaining : Nat)
    (reqs : List RequestRecord) (sleeps : List Int) (resp : Response) (e : PyExn)
    (hm : supportedMethod method)
    (h : transport attempt = .ok resp)
    (h429 : resp.status = 429) (hlt : attempt < max_retries)
    (hd : sleepOutcome resp.retryAfter = .error e) :
    invokeLoop transport method url data attempt remaining reqs sleeps =
      { result := .error e
        requests := reqs ++ [mkRequest (pyUpper method) url data]
        sleeps := sleeps } := by
  unfold supportedMethod at hm
  rw [invokeLoop, if_pos hm, h]
  simp only [if_pos (And.intro h429 hlt), hd]

/-- One iteration, success with a non-empty decodable body: return the
decoded payload. -/
theorem invokeLoop_step_success_json (transport : Nat → TransportResult)
    (method url : String) (data : Option JsonVal) (attempt remaining : Nat)
    (reqs : List RequestRecord) (sleeps : List Int) (resp : Response) (v : JsonVal)
    (hm : supportedMethod method)
    (h : transport attempt = .ok resp)
    (h2xx : 200 ≤ resp.status ∧ resp.status < 300)
    (hb : resp.body ≠ "") (hj : resp.jsonBody = some v) :
    invokeLoop transport method url data attempt remaining reqs sleeps =
      { result := .ok (some v)
        requests := reqs ++ [mkRequest (pyUpper method) url data]
        sleeps := sleeps } := by
  have h429 : ¬ (resp.status = 429 ∧ attempt < max_retries) := by
    rintro ⟨hs, -⟩; omega
  unfold supportedMethod at hm
  rw [invokeLoop, if_pos hm, h]
  simp only [if_neg h429, if_pos h2xx, hj]
  rw [if_pos hb]

/-- One iteration, success with an empty body: return `None`, not an error. -/
theorem invokeLoop_step_success_empty (transport : Nat → TransportResult)
    (method url : String) (data : Option JsonVal) (attempt remaining : Nat)
    (reqs : List RequestRecord) (sleeps : List Int) (resp : Response)
    (hm : supportedMethod method)
    (h : transport attempt = .ok resp)
    (h2xx : 200 ≤ resp.status ∧ resp.status < 300)
    (hb : resp.body = "") :
    invokeLoop transport method url data attempt remaining reqs sleeps =
      { result := .ok none
        requests := reqs ++ [mkRequest (pyUpper method) url data]
        sleeps := sleeps } := by
  have h429 : ¬ (resp.status = 429 ∧ attempt < max_retries) := by
    rintro ⟨hs, -⟩; omega
  unfold supportedMethod at hm
  rw [invokeLoop, if_pos hm, h]
  simp only [if_neg h429, if_pos h2xx]
  rw [if_neg (by simp [hb])]

/-- One iteration, terminal error status (outside [200, 300) and not a
retried 429): line 69 raises `HTTPError`, which the handler on line 73
catches (`HTTPError` subclasses `RequestException`) and re-raises wrapped
in a plain `Exception`. -/
theorem invokeLoop_step_http_error (transport : Nat → TransportResult)
    (method url : String) (data : Option JsonVal) (attempt remaining : Nat)
    (reqs : List RequestRecord) (sleeps : List Int) (resp : Response)
    (hm : supportedMethod method)
    (h : transport attempt = .ok resp)
    (hno429 : ¬ (resp.status = 429 ∧ attempt < max_retries))
    (hnotOk : ¬ (200 ≤ resp.status ∧ resp.status < 300)) :
    invokeLoop transport method url data attempt remaining reqs sleeps =
      { result := .error (.genericException url
          (.httpError resp.status url (errorContent resp)))
        requests := reqs ++ [mkRequest (pyUpper method) url data]
        sleeps := sleeps } := by
  unfold supportedMethod at hm
  rw [invokeLoop, if_pos hm, h]
  simp only [if_neg hno429, if_neg hnotOk]

/-- Every request the loop ever sends is the same record
`mkRequest (pyUpper method) url data`, and the loop sends at most
`remaining + 1` further requests: the retry loop re-sends the identical
request (same method, URL, headers, body) and is bounded by the countdown. -/
theorem invokeLoop_requests_shape (transport : Nat → TransportResult)
    (method url : String) (data : Option JsonVal)
    (hm : supportedMethod method) :
    ∀ remaining attempt reqs sleeps, ∃ k, k ≤ remaining + 1 ∧
      (invokeLoop transport method url data attempt remaining reqs sleeps).requests
        = reqs ++ List.replicate k (mkRequest (pyUpper method) url data) := by
  have hm' : pyUpper method = "GET" ∨ pyUpper method = "POST"
      ∨ pyUpper method = "PUT" ∨ pyUpper method = "DELETE" := hm
  intro remaining
  induction remaining with
  | zero =>
    intro attempt reqs sleeps
    refine ⟨1, by omega, ?_⟩
    rw [invokeLoop, if_pos hm']
    cases hT : transport attempt with
    | exn msg => simp
    | ok resp =>
      by_cases h429 : resp.status = 429 ∧ attempt < max_retries
      · simp only [if_pos h429]
        cases hs : sleepOutcome resp.retryAfter with
        | error e => simp
        | ok d => simp
      · simp only [if_neg h429]
        by_cases h2 : 200 ≤ resp.status ∧ resp.status < 300
        · simp only [if_pos h2]
          by_cases hb : resp.body ≠ ""
          · simp only [if_pos hb]
            cases resp.jsonBody <;> simp
          · simp only [if_neg hb]; simp
        · simp only [if_neg h2]; simp
  | succ r ih =>
    intro attempt reqs sleeps
    rw [invokeLoop, if_pos hm']
    cases hT : transport attempt with
    | exn msg => exact ⟨1, by omega, by simp⟩
    | ok resp =>
      by_cases h429 : resp.status = 429 ∧ attempt < max_retries
      · simp only [if_pos h429]
        cases hs : sleepOutcome resp.retryAfter with
        | error e => exact ⟨1, by omega, by simp⟩
        | ok d =>
          obtain ⟨k, hk, hreq⟩ := ih (attempt + 1)
            (reqs ++ [mkRequest (pyUpper method) url data]) (sleeps ++ [d])
          refine ⟨k + 1, by omega, ?_⟩
          simp only [List.replicate_succ]
          rw [hreq]
          simp
      · simp only [if_neg h429]
        by_cases h2 : 200 ≤ resp.status ∧ resp.status < 300
        · simp only [if_pos h2]
          by_cases hb : resp.body ≠ ""
          · simp only [if_pos hb]
            cases resp.jsonBody <;> exact ⟨1, by omega, by simp⟩
          · simp only [if_neg hb]; exact ⟨1, by omega, by simp⟩
        · simp only [if_neg h2]; exact ⟨1, by omega, by simp⟩

/-- C2: on a 429 response with `attempt < max_retries`, the executor reads
`Retry-After`, sleeps the parsed value when the header is present (and sleeps
the 2-second default when it is absent), increments the attempt counter, and
re-sends the identical request: the loop continues with the same method, URL
and body, every request it ever sends being the same record (same method,
URL, headers, body).  The hypothesis `sleepOutcome ... = .ok d` restricts to
headers on which `int()`/`time.sleep` does not raise (see C7). -/
theorem invoke_meraki_retries_on_429 (transport : Nat → TransportResult)
    (method url : String) (data : Option JsonVal) (attempt r : Nat)
    (reqs : List RequestRecord) (sleeps : List Int) (resp : Response) (d : Int)
    (hm : supportedMethod method)
    (h : transport attempt = .ok resp)
    (h429 : resp.status = 429)
    (hlt : attempt < max_retries)
    (hd : sleepOutcome resp.retryAfter = .ok d) :
    invokeLoop transport method url data attempt (r + 1) reqs sleeps =
      invokeLoop transport method url data (attempt + 1) r
        (reqs ++ [mkRequest (pyUpper method) url data]) (sleeps ++ [d])
    ∧ (resp.retryAfter = none → d = 2)
    ∧ (∀ s, resp.retryAfter = some s → s ≠ "" → pyInt s = some d)
    ∧ ∃ k, (invokeLoop transport method url data attempt (r + 1) reqs sleeps).requests
        = reqs ++ List.replicate k (mkRequest (pyUpper method) url data) := by
  refine ⟨invokeLoop_step_retry transport method url data attempt r reqs sleeps resp d
            hm h h429 hlt hd, ?_, ?_, ?_⟩
  · intro hra
    rw [hra] at hd
    injection hd with hd'
    omega
  · intro s hra hne
    rw [hra] at hd
    simp only [sleepOutcome] at hd
    rw [if_neg hne] at hd
    cases hp : pyInt s with
    | none => rw [hp] at hd; cases hd
    | some n =>
      rw [hp] at hd
      by_cases hn : n < 0
      · simp [hn] at hd
      · simp [hn] at hd
        rw [hd]
  · obtain ⟨k, -, hreq⟩ := invokeLoop_requests_shape transport method url data hm
      (r + 1) attempt reqs sleeps
    exact ⟨k, hreq⟩

/-- C2 (witness): the retry step at a concrete 429 response carrying
`Retry-After: 3`: the loop sleeps 3 seconds and re-sends, and `int("3")`
parses to the slept duration. -/
theorem invoke_meraki_retries_on_429_witness :
    invokeLoop retryThenOkTransport "GET" "u" none 1 (3 + 1) [] [] =
      invokeLoop retryThenOkTransport "GET" "u" none (1 + 1) 3
        ([] ++ [mkRequest (pyUpper "GET") "u" none]) ([] ++ [(3 : Int)])
    ∧ pyInt "3" = some 3 :=
  ⟨(invoke_meraki_retries_on_429 retryThenOkTransport "GET" "u" none 1 3 [] []
      { status := 429, retryAfter := some "3", body := "", jsonBody := none } 3
      (Or.inl rfl) rfl rfl (by decide) rfl).1,
   (invoke_meraki_retries_on_429 retryThenOkTransport "GET" "u" none 1 3 [] []
      { status := 429, retryAfter := some "3", body := "", jsonBody := none } 3
      (Or.inl rfl) rfl rfl (by decide) rfl).2.2.1 "3" rfl (by decide)⟩

/-- C4: a transport-level failure during any send (any value of the attempt
counter) terminates the call at once: the `except` handler wraps it and
re-raises, with no further network attempt and no sleep; from the entry
point, a failure on the first send means exactly one network attempt. -/
theorem invoke_meraki_transport_error_immediate (transport : Nat → TransportResult)
    (method uri url : String) (data : Option JsonVal) (attempt remaining : Nat)
    (reqs : List RequestRecord) (sleeps : List Int) (msg : String)
    (hm : supportedMethod method)
    (h : transport attempt = .exn msg) :
    invokeLoop transport method url data attempt remaining reqs sleeps =
      { result := .error (.genericException url (.requestException msg))
        requests := reqs ++ [mkRequest (pyUpper method) url data]
        sleeps := sleeps }
    ∧ (transport 1 = .exn msg →
        invoke_meraki method uri data transport =
          { result := .error (.genericException (BASE_URL ++ uri) (.requestException msg))
            requests := [mkRequest (pyUpper method) (BASE_URL ++ uri) data]
            sleeps := [] }) := by
  constructor
  · exact invokeLoop_step_exn transport method url data attempt remaining reqs sleeps msg hm h
  · intro h1
    unfold invoke_meraki
    rw [invokeLoop_step_exn transport method (BASE_URL ++ uri) data 1 (max_retries - 1)
      [] [] msg hm h1]
    simp

/-- C4 (witness): a connection error on the very first attempt gives the
wrapped transport error after exactly one network attempt and no sleep. -/
theorem invoke_meraki_transport_error_immediate_witness :
    invoke_meraki "GET" "/networks" none connectionRefusedTransport =
      { result := .error (.genericException (BASE_URL ++ "/networks")
          (.requestException "connection refused"))
        requests := [mkRequest (pyUpper "GET") (BASE_URL ++ "/networks") none]
        sleeps := [] } :=
  (invoke_meraki_transport_error_immediate connectionRefusedTransport
    "GET" "/networks" (BASE_URL ++ "/networks") none 1 4 [] [] "connection refused"
    (Or.inl rfl) rfl).2 rfl

/-- C5: a first-attempt response with status in [200, 300) yields a normal
return: the decoded JSON body when the body is non-empty (and decodable),
and the explicit `None` "no content" result — not an error — when the body
is empty. -/
theorem invoke_meraki_success_2xx (method uri : String) (data : Option JsonVal)
    (transport : Nat → TransportResult) (resp : Response)
    (hm : supportedMethod method)
    (h : transport 1 = .ok resp)
    (h2xx : 200 ≤ resp.status ∧ resp.status < 300) :
    (∀ v, resp.jsonBody = some v → resp.body ≠ "" →
      invoke_meraki method uri data transport =
        { result := .ok (some v)
          requests := [mkRequest (pyUpper method) (BASE_URL ++ uri) data]
          sleeps := [] })
    ∧ (resp.body = "" →
      invoke_meraki method uri data transport =
        { result := .ok none
          requests := [mkRequest (pyUpper method) (BASE_URL ++ uri) data]
          sleeps := [] }) := by
  constructor
  · intro v hv hb
    unfold invoke_meraki
    rw [invokeLoop_step_success_json transport method (BASE_URL ++ uri) data 1
      (max_retries - 1) [] [] resp v hm h h2xx hb hv]
    simp
  · intro hb
    unfold invoke_meraki
    rw [invokeLoop_step_success_empty transport method (BASE_URL ++ uri) data 1
      (max_retries - 1) [] [] resp hm h h2xx hb]
    simp

/-- C5 (witness): a 200 with body `[]` returns the decoded array, and a 204
with empty body returns `None`, not an error. -/
theorem invoke_meraki_success_2xx_witness :
    invoke_meraki "GET" "/devices" none okJsonTransport =
      { result := .ok (some (.arr []))
        requests := [mkRequest (pyUpper "GET") (BASE_URL ++ "/devices") none]
        sleeps := [] }
    ∧ invoke_meraki "DELETE" "/devices/1" none noContentTransport =
      { result := .ok none
        requests := [mkRequest (pyUpper "DELETE") (BASE_URL ++ "/devices/1") none]
        sleeps := [] } :=
  ⟨(invoke_meraki_success_2xx "GET" "/devices" none okJsonTransport
      { status := 200, retryAfter := none, body := "[]", jsonBody := some (.arr []) }
      (Or.inl rfl) rfl (by decide)).1 (.arr []) rfl (by decide),
   (invoke_meraki_success_2xx "DELETE" "/devices/1" none noContentTransport
      { status := 204, retryAfter := none, body := "", jsonBody := none }
      (Or.inr (Or.inr (Or.inr rfl))) rfl (by decide)).2 rfl⟩

/-- C9: a 429 whose `Retry-After` header is present but equal to the empty
string is treated exactly like a missing header: `if retry_after` is falsy
on `""`, so `int()` is never attempted and the 2-second default is slept,
after which the loop re-sends (here shown from the entry point: the call
continues as the second attempt with one request sent and a recorded sleep
of 2). -/
theorem invoke_meraki_empty_retry_after_default (method uri : String)
    (data : Option JsonVal) (transport : Nat → TransportResult) (resp : Response)
    (hm : supportedMethod method)
    (h : transport 1 = .ok resp)
    (h429 : resp.status = 429)
    (hra : resp.retryAfter = some "") :
    invoke_meraki method uri data transport =
      invokeLoop transport method (BASE_URL ++ uri) data 2 (max_retries - 2)
        [mkRequest (pyUpper method) (BASE_URL ++ uri) data] [2]
    ∧ sleepOutcome resp.retryAfter = sleepOutcome none := by
  have hso : sleepOutcome resp.retryAfter = .ok 2 := by rw [hra]; rfl
  constructor
  · unfold invoke_meraki
    rw [show max_retries - 1 = 3 + 1 from rfl]
    rw [invokeLoop_step_retry transport method (BASE_URL ++ uri) data 1 3 [] [] resp 2
      hm h h429 (by decide) hso]
    rfl
  · rw [hra]; rfl

/-- C9 (witness): a concrete 429 carrying `Retry-After: ""`. -/
theorem invoke_meraki_empty_retry_after_default_witness :
    invoke_meraki "GET" "/w" none
        (fun _ => .ok { status := 429, retryAfter := some "", body := "", jsonBody := none }) =
      invokeLoop (fun _ => .ok { status := 429, retryAfter := some "", body := "", jsonBody := none })
        "GET" (BASE_URL ++ "/w") none 2 (max_retries - 2)
        [mkRequest (pyUpper "GET") (BASE_URL ++ "/w") none] [2]
    ∧ sleepOutcome (Response.retryAfter { status := 429, retryAfter := some "", body := "", jsonBody := none })
        = sleepOutcome none :=
  invoke_meraki_empty_retry_after_default "GET" "/w" none
    (fun _ => .ok { status := 429, retryAfter := some "", body := "", jsonBody := none })
    { status := 429, retryAfter := some "", body := "", jsonBody := none }
    (Or.inl rfl) rfl rfl rfl

/-- C7 (counterexample): on a 429 whose `Retry-After` is present but not
parseable as an integer, the executor does crash: `int("abc")` raises a
`ValueError` that propagates to the caller (it is not a
`RequestException`), with no sleep and no further attempt — it does not
fall back to the 2-second default and continue as the claim states. -/
theorem invoke_meraki_unparseable_retry_after_counterexample :
    (invoke_meraki "GET" "/c" none unparseableRetryAfterTransport).result =
      .error (.valueError ("invalid literal for int() with base 10: " ++ "abc"))
    ∧ (invoke_meraki "GET" "/c" none unparseableRetryAfterTransport).sleeps = []
    ∧ (invoke_meraki "GET" "/c" none unparseableRetryAfterTransport).requests.length = 1 :=
  ⟨rfl, rfl, rfl⟩

/-- C7 (amended): on a 429 (with attempts remaining) whose `Retry-After`
header is present, non-empty and not parseable as an integer, `int()`
raises `ValueError`, which propagates to the caller: no sleep, no retry.
Only an absent or empty header falls back to the 2-second default. -/
theorem invoke_meraki_unparseable_retry_after_raises (method uri s : String)
    (data : Option JsonVal) (transport : Nat → TransportResult) (resp : Response)
    (hm : supportedMethod method)
    (h : transport 1 = .ok resp)
    (h429 : resp.status = 429)
    (hra : resp.retryAfter = some s) (hne : s ≠ "") (hbad : pyInt s = none) :
    invoke_meraki method uri data transport =
      { result := .error (.valueError ("invalid literal for int() with base 10: " ++ s))
        requests := [mkRequest (pyUpper method) (BASE_URL ++ uri) data]
        sleeps := [] } := by
  have hso : sleepOutcome resp.retryAfter =
      .error (.valueError ("invalid literal for int() with base 10: " ++ s)) := by
    rw [hra]
    simp only [sleepOutcome]
    rw [if_neg hne, hbad]
  unfold invoke_meraki
  rw [invokeLoop_step_retry_valueError transport method (BASE_URL ++ uri) data 1
    (max_retries - 1) [] [] resp _ hm h h429 (by decide) hso]
  simp

/-- C7 (amended, witness): the amended behaviour at `Retry-After: abc`. -/
theorem invoke_meraki_unparseable_retry_after_raises_witness :
    invoke_meraki "GET" "/c2" none
        (fun _ => .ok { status := 429, retryAfter := some "abc", body := "", jsonBody := none }) =
      { result := .error (.valueError ("invalid literal for int() with base 10: " ++ "abc"))
        requests := [mkRequest (pyUpper "GET") (BASE_URL ++ "/c2") none]
        sleeps := [] } :=
  invoke_meraki_unparseable_retry_after_raises "GET" "/c2" "abc" none
    (fun _ => .ok { status := 429, retryAfter := some "abc", body := "", jsonBody := none })
    { status := 429, retryAfter := some "abc", body := "", jsonBody := none }
    (Or.inl rfl) rfl rfl rfl (by decide) (by decide)

/-- C3: the retry loop is bounded by `max_retries = 5` — no call ever sends
more than 5 requests — and with a transport returning 429 on every attempt
the executor sends exactly 5 requests (sleeping 2s after each of the first
4) and then raises.  However, the `HTTPError` carrying status 429 built on
line 69 is caught by the line-73 `except requests.exceptions.RequestException`
handler (`HTTPError` is a subclass) and reaches the caller re-wrapped in a
plain `Exception`, not as an `HTTPError`. -/
theorem invoke_meraki_429_exhausted_five_calls :
    (∀ method uri data transport,
       (invoke_meraki method uri data transport).requests.length ≤ max_retries)
    ∧ invoke_meraki "GET" uplinksUri none always429Transport =
      { result := .error (.genericException uplinksUrl
          (.httpError 429 uplinksUrl (.text "rate limited")))
        requests := List.replicate 5 (mkRequest (pyUpper "GET") uplinksUrl none)
        sleeps := [2, 2, 2, 2] } := by
  constructor
  · intro method uri data transport
    by_cases hm : supportedMethod method
    · obtain ⟨k, hk, hreq⟩ := invokeLoop_requests_shape transport method
        (BASE_URL ++ uri) data hm (max_retries - 1) 1 [] []
      unfold invoke_meraki
      rw [hreq]
      simp only [List.nil_append, List.length_replicate]
      simp only [max_retries] at hk ⊢
      omega
    · have hm' : ¬ (pyUpper method = "GET" ∨ pyUpper method = "POST"
          ∨ pyUpper method = "PUT" ∨ pyUpper method = "DELETE") := hm
      unfold invoke_meraki
      rw [invokeLoop, if_neg hm']
      simp [max_retries]
  · rfl

/-- C6 (code bug evaluation): on a terminal non-2xx response, the `HTTPError`
built on line 69 does carry the status code, the full request URL, and the
JSON-decoded error body (falling back to the raw text body when decoding
fails) — but it is caught by the line-73 handler (`HTTPError` subclasses
`RequestException`) and reaches the caller wrapped in the same plain
`Exception` (`genericException`) used for transport failures, not as an
error kind distinct from `TransportError`. -/
theorem invoke_meraki_http_error_wrapped_same_kind :
    invoke_meraki "GET" "/d" none notFoundTransport =
      { result := .error (.genericException (BASE_URL ++ "/d")
          (.httpError 404 (BASE_URL ++ "/d")
            (.json (.obj [("errors", .arr [.str "not found"])]))))
        requests := [mkRequest (pyUpper "GET") (BASE_URL ++ "/d") none]
        sleeps := [] }
    ∧ invoke_meraki "GET" "/e" none undecodableErrorTransport =
      { result := .error (.genericException (BASE_URL ++ "/e")
          (.httpError 500 (BASE_URL ++ "/e") (.text "Server Error")))
        requests := [mkRequest (pyUpper "GET") (BASE_URL ++ "/e") none]
        sleeps := [] } :=
  ⟨rfl, rfl⟩
